import Mathlib

/-!
Shallow embedding of the medi8 in-process mediator (src/src/lib.rs).

The Rust code keeps two tables keyed by `TypeId`:
  * `request_handlers : HashMap<TypeId, Box<dyn Any>>`, where the stored
    `Any` is a `Box<dyn RequestHandler<R, Resp>>`; the `Any` downcast in
    `send_request` therefore succeeds exactly when both the request type
    `R` and the response type `Resp` at the call site equal the pair the
    handler was registered with.
  * `notification_handlers : HashMap<TypeId, Vec<Box<dyn Any>>>`, where each
    stored `Any` is a `Box<dyn NotificationHandler<N>>`; the downcast in
    `send_notification` succeeds exactly when the call-site `N` equals the
    `N` the handler was registered with.

Embedding choices:
  * runtime type identities (`TypeId`) are modelled as `Nat`;
  * runtime values are modelled as `Nat` payloads (`Val`); the static types
    `R`, `Resp`, `N` of the Rust generics become explicit `TypeId` arguments;
  * a registered request handler is its declared `(reqTy, respTy)` pair, a
    handler identity tag `hid` (so that distinct registered handler objects
    can be told apart) and its pure `handle` function;
  * a registered notification handler is its declared `notifTy` plus its
    identity tag; its side effect is modelled observationally: dispatch
    returns the trace of invocation events `(hid, value received)`, in
    invocation order.  `notification.clone()` duplicates the value, so each
    handler receives the value `n` itself in the pure model;
  * the `HashMap`s are modelled as association lists with first-match
    lookup, replace-in-place insertion (`HashMap::insert`) and
    append-to-entry update (`entry(..).or_insert_with(Vec::new)` + `push`);
  * the stateful methods are embedded in state-passing style: each returns
    the resulting `Mediator` alongside its result and invocation trace
    (`send_request` and `send_notification` take `&self` in Rust and hence
    return the input state unchanged);
  * the two `String` errors are kept verbatim: the spec names
    `NoHandlerRegistered` for "No handler registered for request." and
    `HandlerTypeMismatch` for "Handler found, but type mismatch occurred.".
-/

namespace Medi8

/-- Runtime type identity (`std::any::TypeId`). -/
abbrev TypeId := Nat

/-- Runtime value payloads. -/
abbrev Val := Nat

/-- Identity tag distinguishing registered handler objects. -/
abbrev HId := Nat

/-- One observable handler invocation: which handler ran, and the value it
received. -/
structure Event where
  hid : HId
  arg : Val
  deriving DecidableEq

/-- The content of one `Box<dyn Any>` stored in `request_handlers`: the
`(R, Resp)` pair it was registered under, the handler object's identity, and
its `handle` function (`RequestHandler::handle`). -/
structure ErasedReqHandler where
  reqTy : TypeId
  respTy : TypeId
  hid : HId
  handle : Val → Val

/-- The content of one `Box<dyn Any>` stored in `notification_handlers`: the
`N` it was registered under and the handler object's identity. -/
structure ErasedNotifHandler where
  notifTy : TypeId
  hid : HId
  deriving DecidableEq

/-- First-match association-list lookup (`HashMap::get`). -/
def lookupAL {β : Type} : List (TypeId × β) → TypeId → Option β
  | [], _ => none
  | (k, v) :: t, key => if k = key then some v else lookupAL t key

/-- Replace-in-place association-list insertion (`HashMap::insert`). -/
def insertAL {β : Type} : List (TypeId × β) → TypeId → β → List (TypeId × β)
  | [], key, v => [(key, v)]
  | (k, w) :: t, key, v =>
      if k = key then (key, v) :: t else (k, w) :: insertAL t key v

/-- Append one element to the list stored under `key`, creating a singleton
list if the key is absent (`entry(key).or_insert_with(Vec::new)` followed by
`push`). -/
def pushAL {β : Type} : List (TypeId × List β) → TypeId → β → List (TypeId × List β)
  | [], key, h => [(key, [h])]
  | (k, hs) :: t, key, h =>
      if k = key then (k, hs ++ [h]) :: t else (k, hs) :: pushAL t key h

/-- The mediator: two type-identity-keyed tables of erased handlers. -/
structure Mediator where
  request_handlers : List (TypeId × ErasedReqHandler)
  notification_handlers : List (TypeId × List ErasedNotifHandler)

/-- Rust `Mediator::new`: both tables empty. -/
def Mediator.new : Mediator := ⟨[], []⟩

/-- Rust `Mediator::register_request::<R, Resp, H>(handler)`: insert the erased
handler under `TypeId::of::<R>()`, replacing any prior entry. -/
def Mediator.register_request (m : Mediator) (R Resp : TypeId) (hid : HId)
    (handle : Val → Val) : Mediator :=
  { m with request_handlers :=
      insertAL m.request_handlers R ⟨R, Resp, hid, handle⟩ }

/-- Rust `Mediator::register_notification::<N, H>(handler)`: append the erased
handler to the list under `TypeId::of::<N>()`, creating the list first if
absent. -/
def Mediator.register_notification (m : Mediator) (N : TypeId) (hid : HId) :
    Mediator :=
  { m with notification_handlers :=
      pushAL m.notification_handlers N ⟨N, hid⟩ }

/-- Rust `Mediator::send_request::<R, Resp>(request)`: look up the entry for
`TypeId::of::<R>()`; if absent fail with "No handler registered for
request."; otherwise downcast the stored `Any` to
`Box<dyn RequestHandler<R, Resp>>` — which succeeds exactly when the stored
`(reqTy, respTy)` pair equals `(R, Resp)` — failing with "Handler found, but
type mismatch occurred." on mismatch; on success invoke the handler once.
Returned in state-passing style together with the trace of handler
invocations. -/
def Mediator.send_request (m : Mediator) (R Resp : TypeId) (request : Val) :
    Mediator × Except String Val × List Event :=
  match lookupAL m.request_handlers R with
  | none => (m, Except.error "No handler registered for request.", [])
  | some e =>
      if e.reqTy = R ∧ e.respTy = Resp then
        (m, Except.ok (e.handle request), [⟨e.hid, request⟩])
      else
        (m, Except.error "Handler found, but type mismatch occurred.", [])

/-- The `for` loop of `send_notification`: walk the stored list in order;
for each entry whose downcast to `Box<dyn NotificationHandler<N>>` succeeds
(stored `notifTy` equals the call-site `N`), invoke it with a clone of the
notification, recording the invocation; entries failing the downcast are
silently skipped (`if let Some(handler) = ...`). -/
def runNotifHandlers (N : TypeId) (v : Val) : List ErasedNotifHandler → List Event
  | [] => []
  | h :: t =>
      if h.notifTy = N then ⟨h.hid, v⟩ :: runNotifHandlers N v t
      else runNotifHandlers N v t

/-- Rust `Mediator::send_notification::<N>(notification)`: look up the list for
`TypeId::of::<N>()`; if absent return immediately; otherwise run every
stored handler that downcasts to a handler for `N`, in list order, each on a
clone of the notification.  State-passing style with invocation trace. -/
def Mediator.send_notification (m : Mediator) (N : TypeId) (notification : Val) :
    Mediator × List Event :=
  match lookupAL m.notification_handlers N with
  | none => (m, [])
  | some hs => (m, runNotifHandlers N notification hs)

/-- One registration call, for describing registration histories. -/
inductive RegEvent where
  | reqReg (R Resp : TypeId) (hid : HId) (handle : Val → Val)
  | notifReg (N : TypeId) (hid : HId)

/-- Apply one registration call to a mediator. -/
def applyReg (m : Mediator) : RegEvent → Mediator
  | .reqReg R Resp hid f => m.register_request R Resp hid f
  | .notifReg N hid => m.register_notification N hid

/-- The mediator produced by a registration history, in call order, starting
from `Mediator::new`. -/
def buildMediator (hist : List RegEvent) : Mediator :=
  hist.foldl applyReg Mediator.new

/-- Homogeneity of a notification table: every handler stored under key `k`
was registered for notification type `k`. -/
def notifHomogeneous (l : List (TypeId × List ErasedNotifHandler)) : Prop :=
  ∀ k hs, lookupAL l k = some hs → ∀ h ∈ hs, h.notifTy = k

/-! ### Association-list lemmas shared by the claim proofs -/

theorem lookupAL_insertAL {β : Type} (l : List (TypeId × β)) (key k : TypeId)
    (v : β) :
    lookupAL (insertAL l key v) k = if k = key then some v else lookupAL l k := by
  induction l with
  | nil =>
      by_cases h : k = key
      · subst h; simp [insertAL, lookupAL]
      · simp [insertAL, lookupAL, h, Ne.symm h]
  | cons hd tl ih =>
      obtain ⟨k₀, w⟩ := hd
      by_cases h₀ : k₀ = key
      · subst h₀
        by_cases h : k = k₀
        · subst h; simp [insertAL, lookupAL]
        · simp [insertAL, lookupAL, h, Ne.symm h]
      · by_cases h : k = k₀
        · subst h
          simp [insertAL, lookupAL, h₀, Ne.symm h₀]
        · simp [insertAL, lookupAL, h₀, Ne.symm h, ih]

theorem lookupAL_pushAL {β : Type} (l : List (TypeId × List β)) (key k : TypeId)
    (h : β) :
    lookupAL (pushAL l key h) k =
      if k = key then some ((lookupAL l key).getD [] ++ [h])
      else lookupAL l k := by
  induction l with
  | nil =>
      by_cases hk : k = key
      · subst hk; simp [pushAL, lookupAL]
      · simp [pushAL, lookupAL, hk, Ne.symm hk]
  | cons hd tl ih =>
      obtain ⟨k₀, hs₀⟩ := hd
      by_cases h₀ : k₀ = key
      · subst h₀
        by_cases hk : k = k₀
        · subst hk; simp [pushAL, lookupAL]
        · simp [pushAL, lookupAL, hk, Ne.symm hk]
      · by_cases hk : k = k₀
        · subst hk
          simp [pushAL, lookupAL, h₀, Ne.symm h₀]
        · simp [pushAL, lookupAL, h₀, Ne.symm hk, ih]

theorem insertAL_insertAL {β : Type} (l : List (TypeId × β)) (key : TypeId)
    (v w : β) :
    insertAL (insertAL l key v) key w = insertAL l key w := by
  induction l with
  | nil => simp [insertAL]
  | cons hd tl ih =>
      obtain ⟨k₀, u⟩ := hd
      by_cases h₀ : k₀ = key
      · subst h₀; simp [insertAL]
      · simp [insertAL, h₀, ih]

theorem runNotifHandlers_of_homogeneous (N : TypeId) (v : Val)
    (hs : List ErasedNotifHandler) (hhom : ∀ h ∈ hs, h.notifTy = N) :
    runNotifHandlers N v hs = hs.map (fun h => ⟨h.hid, v⟩) := by
  induction hs with
  | nil => simp [runNotifHandlers]
  | cons h t ih =>
      have hN : h.notifTy = N := hhom h (List.mem_cons_self h t)
      simp [runNotifHandlers, hN, ih fun h hmem => hhom h (List.mem_cons_of_mem _ hmem)]

theorem notifHomogeneous_nil : notifHomogeneous [] := by
  intro k hs hlook
  simp [lookupAL] at hlook

theorem notifHomogeneous_pushAL (l : List (TypeId × List ErasedNotifHandler))
    (N : TypeId) (hid : HId) (hl : notifHomogeneous l) :
    notifHomogeneous (pushAL l N ⟨N, hid⟩) := by
  intro k hs hlook
  rw [lookupAL_pushAL] at hlook
  by_cases hk : k = N
  · rw [if_pos hk] at hlook
    subst hk
    intro h hmem
    obtain rfl := Option.some.inj hlook
    rcases List.mem_append.mp hmem with hmem | hmem
    · cases hget : lookupAL l k with
      | none => rw [hget] at hmem; simp at hmem
      | some hs₀ =>
          rw [hget] at hmem
          exact hl k hs₀ hget h hmem
    · simp at hmem
      subst hmem
      rfl
  · rw [if_neg hk] at hlook
    exact hl k hs hlook

theorem notifHomogeneous_applyReg (m : Mediator) (e : RegEvent)
    (hm : notifHomogeneous m.notification_handlers) :
    notifHomogeneous (applyReg m e).notification_handlers := by
  cases e with
  | reqReg R Resp hid f => exact hm
  | notifReg N hid => exact notifHomogeneous_pushAL _ N hid hm

theorem notifHomogeneous_foldl (hist : List RegEvent) (m : Mediator)
    (hm : notifHomogeneous m.notification_handlers) :
    notifHomogeneous (hist.foldl applyReg m).notification_handlers := by
  induction hist generalizing m with
  | nil => exact hm
  | cons e t ih => exact ih (applyReg m e) (notifHomogeneous_applyReg m e hm)

theorem notifHomogeneous_buildMediator (hist : List RegEvent) :
    notifHomogeneous (buildMediator hist).notification_handlers :=
  notifHomogeneous_foldl hist Mediator.new notifHomogeneous_nil

/-! ### The claims -/

/-- Claim C1: for every request type `R` whose current table entry was
registered with handler `(hid, f)` producing response type `Resp`,
`send_request::<R, Resp>(r)` returns success carrying exactly `f r`, the
handler is invoked exactly once (singleton trace `[(hid, r)]`), and the
state is unchanged. -/
theorem send_request_invokes_registered_handler (m : Mediator)
    (R Resp : TypeId) (hid : HId) (f : Val → Val) (r : Val)
    (hlook : lookupAL m.request_handlers R = some ⟨R, Resp, hid, f⟩) :
    m.send_request R Resp r = (m, Except.ok (f r), [⟨hid, r⟩]) := by
  simp [Mediator.send_request, hlook]

/-- Witness for C1: a mediator with `Nat.succ` registered for request type 1
with response type 2 answers `send_request 1 2 5` with `ok 6` and one
invocation of handler 7 on input 5. -/
theorem send_request_invokes_registered_handler_witness :
    (Mediator.new.register_request 1 2 7 Nat.succ).send_request 1 2 5 =
      (Mediator.new.register_request 1 2 7 Nat.succ, Except.ok 6, [⟨7, 5⟩]) :=
  send_request_invokes_registered_handler _ 1 2 7 Nat.succ 5 rfl

/-- Claim C2: if an entry exists for the request's type identity but its
registered response type differs from the caller's expected `Resp`, then
`send_request` returns the `HandlerTypeMismatch` error ("Handler found, but
type mismatch occurred."), returns no value, invokes no handler (empty
trace) and leaves the state unchanged; the downcast checks the full
`(R, Resp)` pair, so a `Resp` mismatch alone forces the failure. -/
theorem send_request_type_mismatch (m : Mediator) (R Resp : TypeId)
    (e : ErasedReqHandler) (r : Val)
    (hlook : lookupAL m.request_handlers R = some e)
    (hne : e.respTy ≠ Resp) :
    m.send_request R Resp r =
      (m, Except.error "Handler found, but type mismatch occurred.", []) := by
  simp [Mediator.send_request, hlook, hne]

/-- Witness for C2: a handler registered for request type 3 with response
type 4, queried with expected response type 5, yields the mismatch error,
no invocation, unchanged state. -/
theorem send_request_type_mismatch_witness :
    (Mediator.new.register_request 3 4 11 (fun v => v * 2)).send_request 3 5 9 =
      (Mediator.new.register_request 3 4 11 (fun v => v * 2),
        Except.error "Handler found, but type mismatch occurred.", []) :=
  send_request_type_mismatch _ 3 5 ⟨3, 4, 11, fun v => v * 2⟩ 9 rfl (by decide)

/-- Claim C3: for every request type with no entry in the request table,
`send_request` returns the `NoHandlerRegistered` error ("No handler
registered for request."), invokes no handler (empty trace) and leaves the
state unchanged. -/
theorem send_request_no_handler (m : Mediator) (R Resp : TypeId) (r : Val)
    (hlook : lookupAL m.request_handlers R = none) :
    m.send_request R Resp r =
      (m, Except.error "No handler registered for request.", []) := by
  simp [Mediator.send_request, hlook]

/-- Witness for C3: on a freshly constructed mediator, `send_request`
returns the no-handler error with no invocation and unchanged state. -/
theorem send_request_no_handler_witness :
    Mediator.new.send_request 0 1 42 =
      (Mediator.new, Except.error "No handler registered for request.", []) :=
  send_request_no_handler Mediator.new 0 1 42 rfl

/-- Claim C4: on any mediator built by a registration history, if the
notification table maps `N` to the handler list `hs`, then
`send_notification N n` invokes exactly the handlers of `hs`, each exactly
once, in registration order, each receiving the duplicate value `n`, and
leaves the state unchanged; the per-handler re-specialization always
succeeds because the stored list is homogeneous per key by construction. -/
theorem send_notification_invokes_all_in_order (hist : List RegEvent)
    (N : TypeId) (hs : List ErasedNotifHandler) (n : Val)
    (hlook : lookupAL (buildMediator hist).notification_handlers N = some hs) :
    (buildMediator hist).send_notification N n =
      (buildMediator hist, hs.map (fun h => ⟨h.hid, n⟩)) := by
  have hhom := notifHomogeneous_buildMediator hist N hs hlook
  simp [Mediator.send_notification, hlook,
    runNotifHandlers_of_homogeneous N n hs hhom]

/-- Witness for C4: after registering handlers 9 then 8 for notification
type 4, `send_notification 4 5` invokes 9 then 8, each once, each on 5. -/
theorem send_notification_invokes_all_in_order_witness :
    (buildMediator [RegEvent.notifReg 4 9, RegEvent.notifReg 4 8]).send_notification 4 5 =
      (buildMediator [RegEvent.notifReg 4 9, RegEvent.notifReg 4 8],
        [⟨9, 5⟩, ⟨8, 5⟩]) :=
  send_notification_invokes_all_in_order
    [RegEvent.notifReg 4 9, RegEvent.notifReg 4 8] 4 [⟨4, 9⟩, ⟨4, 8⟩] 5 rfl

/-- Claim C5: re-registering a request handler for the same request type
replaces the previously stored handler outright: the resulting mediator
state is identical to the one obtained without the first registration, so
every subsequent `send_request` observes only the latest handler. -/
theorem register_request_overwrites (m : Mediator) (R Resp₁ Resp₂ : TypeId)
    (hid₁ hid₂ : HId) (f₁ f₂ : Val → Val) :
    (m.register_request R Resp₁ hid₁ f₁).register_request R Resp₂ hid₂ f₂ =
      m.register_request R Resp₂ hid₂ f₂ := by
  simp [Mediator.register_request, insertAL_insertAL]

/-- Claim C6: for every notification type with no entry in the notification
table, `send_notification` is a safe no-op: it returns normally, invokes no
handler (empty trace) and leaves the state unchanged. -/
theorem send_notification_no_handlers (m : Mediator) (N : TypeId) (n : Val)
    (hlook : lookupAL m.notification_handlers N = none) :
    m.send_notification N n = (m, []) := by
  simp [Mediator.send_notification, hlook]

/-- Witness for C6: on a freshly constructed mediator, `send_notification`
invokes nothing and leaves the state unchanged. -/
theorem send_notification_no_handlers_witness :
    Mediator.new.send_notification 2 3 = (Mediator.new, []) :=
  send_notification_no_handlers Mediator.new 2 3 rfl

/-- Claim C7: the two dispatch operations never mutate the mediator's
stored state: whatever the outcome, the state component returned by
`send_request` and by `send_notification` is exactly the input mediator,
both tables included. -/
theorem send_ops_leave_state_unchanged (m : Mediator) (R Resp N : TypeId)
    (r n : Val) :
    (m.send_request R Resp r).1 = m ∧ (m.send_notification N n).1 = m := by
  constructor
  · unfold Mediator.send_request
    split
    · rfl
    · split <;> rfl
  · unfold Mediator.send_notification
    split <;> rfl

/-- Claim C8: `register_notification` always succeeds and only appends: the
list under the registered type gains the new handler at its end (created as
a singleton when absent), every other key is untouched, and no registration
operation ever shrinks the list stored under any key. -/
theorem register_notification_append_only (m : Mediator) (N : TypeId)
    (hid : HId) (K : TypeId) :
    (lookupAL (m.register_notification N hid).notification_handlers K =
      if K = N then
        some ((lookupAL m.notification_handlers N).getD [] ++ [⟨N, hid⟩])
      else lookupAL m.notification_handlers K) ∧
    (∀ e : RegEvent, ∃ tail,
      (lookupAL (applyReg m e).notification_handlers K).getD [] =
        (lookupAL m.notification_handlers K).getD [] ++ tail) := by
  constructor
  · simp [Mediator.register_notification, lookupAL_pushAL]
  · intro e
    cases e with
    | reqReg R Resp hid₀ f =>
        exact ⟨[], by simp [applyReg, Mediator.register_request]⟩
    | notifReg N₀ hid₀ =>
        by_cases hK : K = N₀
        · subst hK
          exact ⟨[⟨K, hid₀⟩],
            by simp [applyReg, Mediator.register_notification, lookupAL_pushAL]⟩
        · exact ⟨[],
            by simp [applyReg, Mediator.register_notification, lookupAL_pushAL, hK]⟩

/-- Claim C9: `send_request` is deterministic given a fixed registration
history: two mediators built by the same registration sequence give equal
results (state, success value or error, and trace) on equal requests with
the same expected response type. -/
theorem send_request_deterministic (hist : List RegEvent) (R Resp : TypeId)
    (r : Val) (m₁ m₂ : Mediator)
    (h₁ : m₁ = buildMediator hist) (h₂ : m₂ = buildMediator hist) :
    m₁.send_request R Resp r = m₂.send_request R Resp r := by
  subst h₁; subst h₂; rfl

/-- Witness for C9: two mediators built by the same one-registration
history answer the same request identically. -/
theorem send_request_deterministic_witness :
    (buildMediator [RegEvent.reqReg 6 7 13 (fun v => v + 3)]).send_request 6 7 2 =
      (buildMediator [RegEvent.reqReg 6 7 13 (fun v => v + 3)]).send_request 6 7 2 :=
  send_request_deterministic [RegEvent.reqReg 6 7 13 (fun v => v + 3)] 6 7 2
    (buildMediator [RegEvent.reqReg 6 7 13 (fun v => v + 3)])
    (buildMediator [RegEvent.reqReg 6 7 13 (fun v => v + 3)]) rfl rfl

/-- Claim C10: registration is isolated across keys and across tables:
`register_request` for `R` leaves every request-table entry at a key other
than `R` and the whole notification table unchanged; `register_notification`
for `N` leaves every notification list at a key other than `N` and the
whole request table unchanged. -/
theorem register_ops_isolated (m : Mediator) (R Resp : TypeId) (hid : HId)
    (f : Val → Val) (N : TypeId) (nhid : HId) (K : TypeId)
    (hKR : K ≠ R) (hKN : K ≠ N) :
    (lookupAL (m.register_request R Resp hid f).request_handlers K =
        lookupAL m.request_handlers K ∧
      (m.register_request R Resp hid f).notification_handlers =
        m.notification_handlers) ∧
    (lookupAL (m.register_notification N nhid).notification_handlers K =
        lookupAL m.notification_handlers K ∧
      (m.register_notification N nhid).request_handlers =
        m.request_handlers) := by
  refine ⟨⟨?_, rfl⟩, ⟨?_, rfl⟩⟩
  · simp [Mediator.register_request, lookupAL_insertAL, hKR]
  · simp [Mediator.register_notification, lookupAL_pushAL, hKN]

/-- Witness for C10: on a mediator holding entries under key 3 in both
tables, registering a request handler for type 1 and a notification handler
for type 2 leaves everything keyed by 3 untouched, and each registration
leaves the other table untouched. -/
theorem register_ops_isolated_witness :
    (lookupAL (((Mediator.new.register_request 3 8 1 Nat.succ).register_notification 3 2).register_request 1 9 5 Nat.succ).request_handlers 3 =
        lookupAL ((Mediator.new.register_request 3 8 1 Nat.succ).register_notification 3 2).request_handlers 3 ∧
      (((Mediator.new.register_request 3 8 1 Nat.succ).register_notification 3 2).register_request 1 9 5 Nat.succ).notification_handlers =
        ((Mediator.new.register_request 3 8 1 Nat.succ).register_notification 3 2).notification_handlers) ∧
    (lookupAL (((Mediator.new.register_request 3 8 1 Nat.succ).register_notification 3 2).register_notification 2 6).notification_handlers 3 =
        lookupAL ((Mediator.new.register_request 3 8 1 Nat.succ).register_notification 3 2).notification_handlers 3 ∧
      (((Mediator.new.register_request 3 8 1 Nat.succ).register_notification 3 2).register_notification 2 6).request_handlers =
        ((Mediator.new.register_request 3 8 1 Nat.succ).register_notification 3 2).request_handlers) :=
  register_ops_isolated
    ((Mediator.new.register_request 3 8 1 Nat.succ).register_notification 3 2)
    1 9 5 Nat.succ 2 6 3 (by decide) (by decide)

